import Mathlib

/-!
Verification of the Rocket Elevators Express backend.

This file gives a shallow embedding of the quote calculator and the two
data-backed route handlers of the repository and proves the specified
properties about them.

Conventions of the embedding:
- JavaScript numbers are modelled exactly as rationals (`ℚ`); the separate
  `NaN` value produced by a failed `Number(...)` conversion is modelled by the
  `JsNum.nan` constructor.  `Number.isInteger x` on a non-NaN number is
  `x.den = 1`.
- `Math.ceil` on a number is the integer ceiling `⌈·⌉` on `ℚ`.
- `Number(x.toFixed(2))` is `toFixed2`: multiply by 100, round half towards
  positive infinity to an integer, divide by 100 (ECMAScript `toFixed` picks
  the larger candidate integer on ties).
- `s.toLowerCase()` is `toLowerCase`: lowercasing character by character.
- A thrown `Error` is an `Except.error` carrying the message string; an HTTP
  response is a constructor of a response type carrying the JSON payload
  fields that matter.
- The numeric string `rating` and `fee` fields of the agent records are
  embedded as the rationals that `parseFloat` yields on them.
-/

namespace RocketElevators

/-- One entry of the pricing configuration: `{ unitPrice, installRate }`. -/
structure PricingTier where
  unitPrice : ℚ
  installRate : ℚ
deriving DecidableEq, Repr

/-- The fixed pricing configuration for residential elevators
(`const pricing = { standard: ..., premium: ..., excelium: ... }`),
as a lookup from the property name to the OWN property, `none` when the
object itself carries no such property.  JavaScript property access
`pricing[tier]` additionally reaches the members `pricing` inherits from
`Object.prototype`; that full truthiness is modelled by `pricingTruthy`
below. -/
def pricing : String → Option PricingTier
  | "standard" => some ⟨7565, 10 / 100⟩
  | "premium" => some ⟨12345, 13 / 100⟩
  | "excelium" => some ⟨15400, 16 / 100⟩
  | _ => none

/-- `Number(x.toFixed(2))`: rounding to 2 decimal places, ties towards +∞. -/
def toFixed2 (x : ℚ) : ℚ := (⌊x * 100 + 1 / 2⌋ : ℚ) / 100

/-- The object returned by `calculateResidentialQuote`. -/
structure QuoteResult where
  elevatorsRequired : ℤ
  totalCost : ℚ
deriving DecidableEq, Repr

/-- Body of `calculateResidentialQuote`, parameterised by the pricing table it
reads (the JavaScript function reads the module-level `const pricing` and
never writes any shared binding).  The guard `if (!pricing[tier]) throw` is
the `isNone` test on the OWN properties of the table; the later destructuring
`const { unitPrice, installRate } = pricing[tier]` is the `getD` (the default
is unreachable behind the guard).  This form agrees with the source for every
tier except the `Object.prototype` keys; those are captured exactly by
`calculateResidentialQuoteJs` below. -/
def calculateResidentialQuoteWith (table : String → Option PricingTier)
    (apartments floors : ℚ) (tier : String) : Except String QuoteResult :=
  if (table tier).isNone then
    Except.error "Invalid tier specified. Must be standard, premium, or excelium."
  else if apartments.den ≠ 1 ∨ floors.den ≠ 1 then
    Except.error "Apartments and floors must be integers."
  else if apartments ≤ 0 ∨ floors ≤ 0 then
    Except.error "Apartments and floors must be greater than zero."
  else
    let apartmentsPerFloor := apartments / floors
    let elevatorsPerColumn := ⌈apartmentsPerFloor / 6⌉
    let numColumns := ⌈floors / 20⌉
    let totalElevators := elevatorsPerColumn * numColumns
    let p := (table tier).getD ⟨0, 0⟩
    let totalUnitCost := (totalElevators : ℚ) * p.unitPrice
    let totalInstallCost := totalUnitCost * p.installRate
    let totalCost := totalUnitCost + totalInstallCost
    Except.ok ⟨totalElevators, toFixed2 totalCost⟩

/-- `calculateResidentialQuote` from the data/logic module, reading the fixed
`pricing` table. -/
def calculateResidentialQuote : ℚ → ℚ → String → Except String QuoteResult :=
  calculateResidentialQuoteWith pricing

/-- A JavaScript number as produced by `Number(queryParam)`: either NaN
(conversion failed or the parameter was missing) or an exact value. -/
inductive JsNum where
  | nan : JsNum
  | num : ℚ → JsNum
deriving DecidableEq, Repr

/-- Response of the `GET /calc-residential` route: a 400 with an error
message, a 500 with an error message, or a 200 with the quote. -/
inductive CalcResponse where
  | clientError (msg : String)
  | serverError (msg : String)
  | ok (result : QuoteResult)
deriving DecidableEq, Repr

def numbersErrMsg : String := "Apartments and floors must be valid numbers."

def integersErrMsg : String := "Apartments and floors must be integers."

def positiveErrMsg : String := "Apartments and floors must be greater than zero."

def tierErrMsg : String := "Invalid or missing tier. Must be standard, premium, or excelium."

/-- The `GET /calc-residential` handler of the final `app.js`:
validate that both converted query values are numbers, then integers, then
positive, then validate the tier (`!tier || !pricing[tier]`, where a missing
or empty string parameter is falsy), and only then call
`calculateResidentialQuote`, converting a thrown error into a 500 response.
The tier guard here reads the own properties of the table; the variant that
also reaches the `Object.prototype` members is `calcResidentialHandlerJs`
below. -/
def calcResidentialHandler (apartments floors : JsNum) (tier : Option String) :
    CalcResponse :=
  match apartments, floors with
  | JsNum.num a, JsNum.num f =>
    if a.den ≠ 1 ∨ f.den ≠ 1 then
      CalcResponse.clientError integersErrMsg
    else if a ≤ 0 ∨ f ≤ 0 then
      CalcResponse.clientError positiveErrMsg
    else if tier = none ∨ tier = some "" ∨ tier.bind pricing = none then
      CalcResponse.clientError tierErrMsg
    else
      match calculateResidentialQuote a f (tier.getD "") with
      | Except.ok r => CalcResponse.ok r
      | Except.error m => CalcResponse.serverError m
  | _, _ => CalcResponse.clientError numbersErrMsg

/-- The string keys of the members every plain object inherits from
`Object.prototype`, so that `pricing[key]` is a truthy function (or, for
`__proto__`, a truthy object) although the pricing table itself has no such
tier. -/
def objectPrototypeProps : List String :=
  ["constructor", "hasOwnProperty", "isPrototypeOf", "propertyIsEnumerable",
   "toLocaleString", "toString", "valueOf", "__defineGetter__",
   "__defineSetter__", "__lookupGetter__", "__lookupSetter__", "__proto__"]

/-- Truthiness of the JavaScript property access `pricing[tier]`: an own
entry of the table, or a member inherited from `Object.prototype`. -/
def pricingTruthy (tier : String) : Bool :=
  (pricing tier).isSome || objectPrototypeProps.contains tier

/-- The JSON rendering of the `totalCost` number in the response body:
`JSON.stringify` turns `NaN` into `null`. -/
inductive JsonNum where
  | null : JsonNum
  | num (q : ℚ) : JsonNum
deriving DecidableEq, Repr

/-- The object returned by `calculateResidentialQuote`, with `totalCost` as
it is rendered into the JSON response. -/
structure JsQuoteResult where
  elevatorsRequired : ℤ
  totalCost : JsonNum
deriving DecidableEq, Repr

/-- `calculateResidentialQuote` with the exact JavaScript semantics of
`pricing[tier]`: the guard `if (!pricing[tier]) throw` also passes for a
tier naming an `Object.prototype` member; destructuring such a member gives
`unitPrice = installRate = undefined`, the cost arithmetic yields `NaN`,
`Number(NaN.toFixed(2))` is `NaN`, and the JSON response carries `null`. -/
def calculateResidentialQuoteJs (apartments floors : ℚ) (tier : String) :
    Except String JsQuoteResult :=
  if pricingTruthy tier = false then
    Except.error "Invalid tier specified. Must be standard, premium, or excelium."
  else if apartments.den ≠ 1 ∨ floors.den ≠ 1 then
    Except.error "Apartments and floors must be integers."
  else if apartments ≤ 0 ∨ floors ≤ 0 then
    Except.error "Apartments and floors must be greater than zero."
  else
    let apartmentsPerFloor := apartments / floors
    let elevatorsPerColumn := ⌈apartmentsPerFloor / 6⌉
    let numColumns := ⌈floors / 20⌉
    let totalElevators := elevatorsPerColumn * numColumns
    match pricing tier with
    | some p =>
      let totalUnitCost := (totalElevators : ℚ) * p.unitPrice
      let totalInstallCost := totalUnitCost * p.installRate
      let totalCost := totalUnitCost + totalInstallCost
      Except.ok ⟨totalElevators, JsonNum.num (toFixed2 totalCost)⟩
    | none =>
      Except.ok ⟨totalElevators, JsonNum.null⟩

/-- Response of the `GET /calc-residential` route under the exact
`pricing[tier]` semantics. -/
inductive CalcJsResponse where
  | clientError (msg : String)
  | serverError (msg : String)
  | ok (result : JsQuoteResult)
deriving DecidableEq, Repr

/-- The `GET /calc-residential` handler with the exact JavaScript semantics
of its guard `!tier || !pricing[tier]`: a tier naming an `Object.prototype`
member is truthy and passes the validation. -/
def calcResidentialHandlerJs (apartments floors : JsNum) (tier : Option String) :
    CalcJsResponse :=
  match apartments, floors with
  | JsNum.num a, JsNum.num f =>
    if a.den ≠ 1 ∨ f.den ≠ 1 then
      CalcJsResponse.clientError integersErrMsg
    else if a ≤ 0 ∨ f ≤ 0 then
      CalcJsResponse.clientError positiveErrMsg
    else if tier = none ∨ tier = some "" ∨ pricingTruthy (tier.getD "") = false then
      CalcJsResponse.clientError tierErrMsg
    else
      match calculateResidentialQuoteJs a f (tier.getD "") with
      | Except.ok r => CalcJsResponse.ok r
      | Except.error m => CalcJsResponse.serverError m
  | _, _ => CalcJsResponse.clientError numbersErrMsg

/-- `s.toLowerCase()` on the ASCII strings of this repository. -/
def toLowerCase (s : String) : String := ⟨s.data.map Char.toLower⟩

/-- An agent record from the fixed `agents` list. -/
structure Agent where
  firstName : String
  lastName : String
  email : String
  region : String
  rating : ℚ
  fee : ℚ
deriving DecidableEq, Repr

/-- The fixed list of Rocket Elevators agents. -/
def agents : List Agent :=
  [⟨"Orlando", "Perez", "perez@rocket.elv", "north", 95, 10000⟩,
   ⟨"Brutus", "Konway", "brutus@rocket.elv", "north", 92, 9000⟩,
   ⟨"Bob", "Boberson", "bob@rocket.elv", "east", 85, 10000⟩,
   ⟨"John", "Johnson", "john@rocket.elv", "south", 75, 8000⟩,
   ⟨"Jeff", "Lebow", "carpet@rocket.elv", "north", 92, 10000⟩,
   ⟨"Elmar", "Fade", "elmar@rocket.elv", "south", 95, 10000⟩,
   ⟨"Zed", "Roles", "zebra@rocket.elv", "north", 100, 4321⟩,
   ⟨"Dee", "Omega", "omega@rocket.elv", "east", 78, 7000⟩,
   ⟨"Aaron", "De Silva", "aaron@rocket.elv", "east", 89, 8900⟩,
   ⟨"Brian", "Bossman", "papi@rocket.elv", "south", 100, 10001⟩,
   ⟨"Bob", "Robertson", "bob2@rocket.elv", "east", 85, 10000⟩,
   ⟨"George", "Cleese", "monty@rocket.elv", "south", 85, 5000⟩,
   ⟨"Tanim", "Homaini", "tanim@rocket.elv", "south", 96, 10000⟩,
   ⟨"Roger", "Babbel", "loons@rocket.elv", "north", 60, 5000⟩,
   ⟨"Zach", "Van Den Zilch", "zach@rocket.elv", "north", 70, 6000⟩,
   ⟨"Al", "Stein", "relative@rocket.elv", "south", 54, 4000⟩]

/-- Response of the `GET /region-avg` route: a 400 (missing region), a 404
(no agent in the region), or a 200 with the region echoed and the rounded
averages. -/
inductive RegionAvgResponse where
  | badRequest (msg : String)
  | notFound (msg : String)
  | ok (region : String) (averageRating averageFee : ℚ)
deriving DecidableEq, Repr

/-- The `GET /region-avg` handler of the final `app.js`: require the region
query parameter (a missing or empty string parameter is falsy), filter the
agents by case-insensitive region match, 404 on an empty result, otherwise
return the two arithmetic means rounded to 2 decimal places. -/
def regionAvgHandler (regionParam : Option String) : RegionAvgResponse :=
  match regionParam with
  | none => RegionAvgResponse.badRequest "Region is required as query parameter"
  | some regionP =>
    if regionP = "" then
      RegionAvgResponse.badRequest "Region is required as query parameter"
    else
      let regionLower := toLowerCase regionP
      let filtered := agents.filter (fun a => toLowerCase a.region == regionLower)
      if filtered.length = 0 then
        RegionAvgResponse.notFound
          ("No agents found in the supplied region (" ++ regionP ++ ").")
      else
        let totalRating := filtered.foldl (fun sum a => sum + a.rating) 0
        let totalFee := filtered.foldl (fun sum a => sum + a.fee) 0
        let avgRating := totalRating / (filtered.length : ℚ)
        let avgFee := totalFee / (filtered.length : ℚ)
        RegionAvgResponse.ok regionP (toFixed2 avgRating) (toFixed2 avgFee)

/-- The shared module state a route can observe: the pricing table and the
agents list (both `const` bindings of the data module). -/
structure ModuleState where
  pricingTable : String → Option PricingTier
  agentsList : List Agent

/-- The module state at process start. -/
def initialState : ModuleState := ⟨pricing, agents⟩

/-- One call of `calculateResidentialQuote` in state-passing form: the
function body only reads the pricing table and contains no assignment to any
shared binding, so it returns the module state unchanged alongside its
result. -/
def calculateResidentialQuoteCall (s : ModuleState) (apartments floors : ℚ)
    (tier : String) : Except String QuoteResult × ModuleState :=
  (calculateResidentialQuoteWith s.pricingTable apartments floors tier, s)

end RocketElevators

namespace RocketElevators

/-- Every entry of the pricing table has a positive unit price and a
non-negative installation rate. -/
theorem pricing_entries (t : String) (p : PricingTier) (hp : pricing t = some p) :
    0 < p.unitPrice ∧ 0 ≤ p.installRate := by
  unfold pricing at hp
  split at hp <;> simp_all <;> norm_num [← hp]

/-- Closed form of `calculateResidentialQuote` on validated input. -/
theorem quote_formula (a f : ℚ) (had : a.den = 1) (hfd : f.den = 1)
    (ha : 0 < a) (hf : 0 < f) (tier : String) (u r : ℚ)
    (hp : pricing tier = some ⟨u, r⟩) :
    calculateResidentialQuote a f tier =
      Except.ok ⟨⌈a / f / 6⌉ * ⌈f / 20⌉,
        toFixed2 (((⌈a / f / 6⌉ * ⌈f / 20⌉ : ℤ) : ℚ) * u +
          ((⌈a / f / 6⌉ * ⌈f / 20⌉ : ℤ) : ℚ) * u * r)⟩ := by
  show calculateResidentialQuoteWith pricing a f tier = _
  unfold calculateResidentialQuoteWith
  rw [hp]
  rw [if_neg (by simp), if_neg (by simp [had, hfd]),
    if_neg (by push_neg; exact ⟨ha, hf⟩)]
  simp [Option.getD]

/-- Folding an addition of a projection over a list from 0 is the sum of the
mapped list (the `reduce((sum, a) => sum + ..., 0)` idiom). -/
theorem foldl_add_eq_map_sum (g : Agent → ℚ) (l : List Agent) :
    l.foldl (fun sum a => sum + g a) 0 = (l.map g).sum := by
  rw [List.sum_eq_foldl, List.foldl_map]

/-- Claim C1: for every valid input (apartments and floors positive integers,
tier with a pricing entry), `calculateResidentialQuote` returns
`elevatorsRequired = ⌈(apartments/floors)/6⌉ * ⌈floors/20⌉` (real division)
and `totalCost` equal to `E*unitPrice + E*unitPrice*installRate` rounded to
2 decimal places, and the tier table entries are (7565, 0.10) for standard,
(12345, 0.13) for premium, and (15400, 0.16) for excelium. -/
theorem calc_quote_formula_and_pricing_table (a f : ℚ) (had : a.den = 1)
    (hfd : f.den = 1) (ha : 0 < a) (hf : 0 < f) (tier : String) (u r : ℚ)
    (hp : pricing tier = some ⟨u, r⟩) :
    calculateResidentialQuote a f tier =
      Except.ok ⟨⌈a / f / 6⌉ * ⌈f / 20⌉,
        toFixed2 (((⌈a / f / 6⌉ * ⌈f / 20⌉ : ℤ) : ℚ) * u +
          ((⌈a / f / 6⌉ * ⌈f / 20⌉ : ℤ) : ℚ) * u * r)⟩ ∧
    pricing "standard" = some ⟨7565, 10 / 100⟩ ∧
    pricing "premium" = some ⟨12345, 13 / 100⟩ ∧
    pricing "excelium" = some ⟨15400, 16 / 100⟩ :=
  ⟨quote_formula a f had hfd ha hf tier u r hp, rfl, rfl, rfl⟩

/-- Witness for claim C1 at (80, 10, "standard"). -/
theorem calc_quote_formula_and_pricing_table_witness :
    ((80 : ℚ).den = 1 ∧ (10 : ℚ).den = 1 ∧ (0 : ℚ) < 80 ∧ (0 : ℚ) < 10 ∧
      pricing "standard" = some ⟨7565, 10 / 100⟩) ∧
    calculateResidentialQuote 80 10 "standard" =
      Except.ok ⟨⌈(80 : ℚ) / 10 / 6⌉ * ⌈(10 : ℚ) / 20⌉,
        toFixed2 (((⌈(80 : ℚ) / 10 / 6⌉ * ⌈(10 : ℚ) / 20⌉ : ℤ) : ℚ) * 7565 +
          ((⌈(80 : ℚ) / 10 / 6⌉ * ⌈(10 : ℚ) / 20⌉ : ℤ) : ℚ) * 7565 * (10 / 100))⟩ :=
  ⟨⟨by decide, by decide, by norm_num, by norm_num, rfl⟩,
   (calc_quote_formula_and_pricing_table 80 10 (by decide) (by decide) (by norm_num)
      (by norm_num) "standard" 7565 (10 / 100) rfl).1⟩

/-- Claim C2: `calculateResidentialQuote 80 10 "standard"` returns
`elevatorsRequired = 2` and `totalCost = 16643.00`. -/
theorem calc_quote_80_10_standard :
    calculateResidentialQuote 80 10 "standard" = Except.ok ⟨2, 16643⟩ := by
  have h := quote_formula 80 10 (by decide) (by decide) (by norm_num) (by norm_num)
    "standard" 7565 (10 / 100) rfl
  rw [h]
  have e1 : ⌈(80 : ℚ) / 10 / 6⌉ = 2 := Int.ceil_eq_iff.mpr (by norm_num)
  have e2 : ⌈(10 : ℚ) / 20⌉ = 1 := Int.ceil_eq_iff.mpr (by norm_num)
  rw [e1, e2]
  norm_num [toFixed2]

/-- Claim C3: for input (0, -5, tier), the `/calc-residential` handler
reports the non-positive-input error, and it does so for every tier value
whatsoever: the numeric validation fires before the tier is looked at. -/
theorem handler_reports_nonpositive_before_tier (tier : Option String) :
    calcResidentialHandler (JsNum.num 0) (JsNum.num (-5)) tier =
      CalcResponse.clientError positiveErrMsg := by
  simp only [calcResidentialHandler]
  rw [if_neg (by decide), if_pos (by decide)]

/-- Claim C4: whenever apartments or floors has a fractional component, the
`/calc-residential` handler reports the non-integer-input error for every
tier value, and hence never returns a quote computed from a truncated
approximation. -/
theorem handler_rejects_fractional_input (a f : ℚ) (tier : Option String)
    (h : a.den ≠ 1 ∨ f.den ≠ 1) :
    calcResidentialHandler (JsNum.num a) (JsNum.num f) tier =
      CalcResponse.clientError integersErrMsg := by
  simp only [calcResidentialHandler]
  rw [if_pos h]

/-- Witness for claim C4 at apartments = 10.5 (= 21/2), floors = 10. -/
theorem handler_rejects_fractional_input_witness :
    ((mkRat 21 2).den ≠ 1 ∨ ((10 : ℚ)).den ≠ 1) ∧
    calcResidentialHandler (JsNum.num (mkRat 21 2)) (JsNum.num 10) (some "standard") =
      CalcResponse.clientError integersErrMsg :=
  ⟨by decide,
   handler_rejects_fractional_input (mkRat 21 2) 10 (some "standard") (by decide)⟩

/-- Claim C5 (code bug): the claim demands that every missing or unknown tier
be rejected with a distinct input-rejection error and no partial result, but
under the exact JavaScript semantics of `pricing[tier]` the request
(80, 10, "toString") passes the `!tier || !pricing[tier]` guard through the
inherited `Object.prototype.toString` member — although "toString" is none of
standard/premium/excelium and the table has no own entry for it — and the
handler answers 200 with the partial result
`{elevatorsRequired: 2, totalCost: null}` instead of the unknown-tier
error. -/
theorem handler_prototype_tier_partial_result :
    calcResidentialHandlerJs (JsNum.num 80) (JsNum.num 10) (some "toString") =
      CalcJsResponse.ok ⟨2, JsonNum.null⟩ ∧
    "toString" ≠ "standard" ∧ "toString" ≠ "premium" ∧ "toString" ≠ "excelium" ∧
    pricing "toString" = none ∧
    calcResidentialHandlerJs (JsNum.num 80) (JsNum.num 10) (some "toString") ≠
      CalcJsResponse.clientError tierErrMsg := by
  have hq : calculateResidentialQuoteJs 80 10 "toString" =
      Except.ok ⟨2, JsonNum.null⟩ := by
    unfold calculateResidentialQuoteJs
    rw [if_neg (by decide), if_neg (by decide), if_neg (by decide)]
    have e1 : ⌈(80 : ℚ) / 10 / 6⌉ = 2 := Int.ceil_eq_iff.mpr (by norm_num)
    have e2 : ⌈(10 : ℚ) / 20⌉ = 1 := Int.ceil_eq_iff.mpr (by norm_num)
    rw [show pricing "toString" = none from rfl]
    simp [e1, e2]
  have hh : calcResidentialHandlerJs (JsNum.num 80) (JsNum.num 10) (some "toString") =
      CalcJsResponse.ok ⟨2, JsonNum.null⟩ := by
    simp only [calcResidentialHandlerJs]
    rw [if_neg (by decide), if_neg (by decide), if_neg (by decide)]
    rw [show (some "toString" : Option String).getD "" = "toString" from rfl, hq]
  exact ⟨hh, by decide, by decide, by decide, rfl, by rw [hh]; decide⟩

/-- Claim C6: on valid input (positive integers and a known tier),
`calculateResidentialQuote` is deterministic against the fixed pricing table:
the same call yields the same output, and it succeeds with a result. -/
theorem calc_quote_deterministic (a f : ℚ) (tier : String) (had : a.den = 1)
    (hfd : f.den = 1) (ha : 0 < a) (hf : 0 < f)
    (ht : tier = "standard" ∨ tier = "premium" ∨ tier = "excelium") :
    calculateResidentialQuote a f tier = calculateResidentialQuote a f tier ∧
    ∃ res : QuoteResult, calculateResidentialQuote a f tier = Except.ok res := by
  refine ⟨rfl, ?_⟩
  obtain rfl | rfl | rfl := ht
  · exact ⟨_, quote_formula a f had hfd ha hf _ 7565 (10 / 100) rfl⟩
  · exact ⟨_, quote_formula a f had hfd ha hf _ 12345 (13 / 100) rfl⟩
  · exact ⟨_, quote_formula a f had hfd ha hf _ 15400 (16 / 100) rfl⟩

/-- Witness for claim C6 at (80, 10, "standard"). -/
theorem calc_quote_deterministic_witness :
    ((80 : ℚ).den = 1 ∧ (10 : ℚ).den = 1 ∧ (0 : ℚ) < 80 ∧ (0 : ℚ) < 10 ∧
      ("standard" = "standard" ∨ "standard" = "premium" ∨ "standard" = "excelium")) ∧
    (calculateResidentialQuote 80 10 "standard" =
        calculateResidentialQuote 80 10 "standard" ∧
      ∃ res : QuoteResult,
        calculateResidentialQuote 80 10 "standard" = Except.ok res) :=
  ⟨⟨by decide, by decide, by norm_num, by norm_num, Or.inl rfl⟩,
   calc_quote_deterministic 80 10 "standard" (by decide) (by decide) (by norm_num)
     (by norm_num) (Or.inl rfl)⟩

/-- Claim C7: on valid input, the quote result has `elevatorsRequired` a
positive integer (at least 1) and `totalCost` a non-negative amount that is a
whole number of cents (rounded to 2 decimal places). -/
theorem calc_quote_result_wellformed (a f : ℚ) (tier : String) (p : PricingTier)
    (had : a.den = 1) (hfd : f.den = 1) (ha : 0 < a) (hf : 0 < f)
    (hp : pricing tier = some p) :
    ∃ res : QuoteResult, calculateResidentialQuote a f tier = Except.ok res ∧
      1 ≤ res.elevatorsRequired ∧ 0 ≤ res.totalCost ∧ (res.totalCost * 100).den = 1 := by
  obtain ⟨u, r⟩ := p
  have h := quote_formula a f had hfd ha hf tier u r hp
  have h1 : 0 < ⌈a / f / 6⌉ := Int.ceil_pos.mpr (by positivity)
  have h2 : 0 < ⌈f / 20⌉ := Int.ceil_pos.mpr (by positivity)
  have hur := pricing_entries tier ⟨u, r⟩ hp
  have hE : (0 : ℚ) ≤ ((⌈a / f / 6⌉ * ⌈f / 20⌉ : ℤ) : ℚ) := by
    exact_mod_cast (mul_pos h1 h2).le
  have hC : (0 : ℚ) ≤ ((⌈a / f / 6⌉ * ⌈f / 20⌉ : ℤ) : ℚ) * u +
      ((⌈a / f / 6⌉ * ⌈f / 20⌉ : ℤ) : ℚ) * u * r := by
    have hEu : (0 : ℚ) ≤ ((⌈a / f / 6⌉ * ⌈f / 20⌉ : ℤ) : ℚ) * u :=
      mul_nonneg hE hur.1.le
    have := mul_nonneg hEu hur.2
    linarith
  refine ⟨_, h, mul_pos h1 h2, ?_, ?_⟩
  · have hfl : (0 : ℤ) ≤ ⌊(((⌈a / f / 6⌉ * ⌈f / 20⌉ : ℤ) : ℚ) * u +
        ((⌈a / f / 6⌉ * ⌈f / 20⌉ : ℤ) : ℚ) * u * r) * 100 + 1 / 2⌋ :=
      Int.floor_nonneg.mpr (by nlinarith)
    show (0 : ℚ) ≤ toFixed2 _
    unfold toFixed2
    exact div_nonneg (by exact_mod_cast hfl) (by norm_num)
  · show (toFixed2 _ * 100).den = 1
    unfold toFixed2
    rw [div_mul_cancel₀ _ (by norm_num : (100 : ℚ) ≠ 0)]
    exact Rat.den_intCast _

/-- Witness for claim C7 at (80, 10, "standard"). -/
theorem calc_quote_result_wellformed_witness :
    ((80 : ℚ).den = 1 ∧ (10 : ℚ).den = 1 ∧ (0 : ℚ) < 80 ∧ (0 : ℚ) < 10 ∧
      pricing "standard" = some ⟨7565, 10 / 100⟩) ∧
    ∃ res : QuoteResult, calculateResidentialQuote 80 10 "standard" = Except.ok res ∧
      1 ≤ res.elevatorsRequired ∧ 0 ≤ res.totalCost ∧ (res.totalCost * 100).den = 1 :=
  ⟨⟨by decide, by decide, by norm_num, by norm_num, rfl⟩,
   calc_quote_result_wellformed 80 10 "standard" ⟨7565, 10 / 100⟩ (by decide)
     (by decide) (by norm_num) (by norm_num) rfl⟩

/-- Claim C8: a call of the calculator, on any input whatsoever, leaves the
module state (the pricing table and the agents list) unchanged, and so does
calling it twice with the same arguments. -/
theorem calc_quote_preserves_module_state (s : ModuleState) (a f : ℚ) (tier : String) :
    (calculateResidentialQuoteCall s a f tier).2 = s ∧
    (calculateResidentialQuoteCall ((calculateResidentialQuoteCall s a f tier).2)
      a f tier).2 = s ∧
    (calculateResidentialQuoteCall initialState a f tier).2.pricingTable = pricing ∧
    (calculateResidentialQuoteCall initialState a f tier).2.agentsList = agents :=
  ⟨rfl, rfl, rfl, rfl⟩

/-- Claim C9: for a non-empty case-insensitive match of the requested region
against the agents' region fields (a linear filter over the fixed list), the
`/region-avg` handler returns the arithmetic means of the matched agents'
rating and fee fields, each rounded to 2 decimal places. -/
theorem region_avg_case_insensitive_mean (region : String) (hne : region ≠ "")
    (hfil : agents.filter (fun a => toLowerCase a.region == toLowerCase region) ≠ []) :
    regionAvgHandler (some region) =
      RegionAvgResponse.ok region
        (toFixed2 (((agents.filter
            (fun a => toLowerCase a.region == toLowerCase region)).map Agent.rating).sum /
          ((agents.filter
            (fun a => toLowerCase a.region == toLowerCase region)).length : ℚ)))
        (toFixed2 (((agents.filter
            (fun a => toLowerCase a.region == toLowerCase region)).map Agent.fee).sum /
          ((agents.filter
            (fun a => toLowerCase a.region == toLowerCase region)).length : ℚ))) := by
  simp only [regionAvgHandler]
  rw [if_neg hne, if_neg (by simpa [List.length_eq_zero] using hfil)]
  rw [foldl_add_eq_map_sum, foldl_add_eq_map_sum]

/-- Witness for claim C9 at region "North" (upper case, matching the six
lower-case "north" agents): average rating 84.83, average fee 7386.83. -/
theorem region_avg_case_insensitive_mean_witness :
    ("North" ≠ "" ∧
      agents.filter (fun a => toLowerCase a.region == toLowerCase "North") ≠ []) ∧
    regionAvgHandler (some "North") =
      RegionAvgResponse.ok "North" (8483 / 100) (738683 / 100) := by
  refine ⟨⟨by decide, by decide⟩, ?_⟩
  have h := region_avg_case_insensitive_mean "North" (by decide) (by decide)
  rw [h]
  rw [show agents.filter (fun a => toLowerCase a.region == toLowerCase "North") =
    [⟨"Orlando", "Perez", "perez@rocket.elv", "north", 95, 10000⟩,
     ⟨"Brutus", "Konway", "brutus@rocket.elv", "north", 92, 9000⟩,
     ⟨"Jeff", "Lebow", "carpet@rocket.elv", "north", 92, 10000⟩,
     ⟨"Zed", "Roles", "zebra@rocket.elv", "north", 100, 4321⟩,
     ⟨"Roger", "Babbel", "loons@rocket.elv", "north", 60, 5000⟩,
     ⟨"Zach", "Van Den Zilch", "zach@rocket.elv", "north", 70, 6000⟩] from by decide]
  norm_num [toFixed2]

/-- Claim C10: the `/region-avg` handler never divides by zero: every request
either gets a 400 (missing region), a 404 (no agent matches), or a 200 whose
averages are computed over a non-empty filtered list. -/
theorem region_avg_no_division_by_zero (p : Option String) :
    (∃ m, regionAvgHandler p = RegionAvgResponse.badRequest m) ∨
    (∃ m, regionAvgHandler p = RegionAvgResponse.notFound m) ∨
    (∃ rg art afee, regionAvgHandler p = RegionAvgResponse.ok rg art afee ∧
      0 < (agents.filter (fun a => toLowerCase a.region == toLowerCase rg)).length) := by
  match p with
  | none => exact Or.inl ⟨_, rfl⟩
  | some r =>
    by_cases hr : r = ""
    · exact Or.inl ⟨_, by simp only [regionAvgHandler]; rw [if_pos hr]⟩
    · by_cases hl : (agents.filter (fun a => toLowerCase a.region == toLowerCase r)).length = 0
      · exact Or.inr (Or.inl ⟨_, by simp only [regionAvgHandler]; rw [if_neg hr, if_pos hl]⟩)
      · exact Or.inr (Or.inr ⟨r, _, _,
          by simp only [regionAvgHandler]; rw [if_neg hr, if_neg hl], Nat.pos_of_ne_zero hl⟩)

end RocketElevators
